import Mathlib

/-!
Verification of the gemini_proxy server (`src/Server/gemini_proxy/`):
a shallow embedding in Lean 4 of the request translator, stream translator,
error mapper, session manager and chat handler, with theorems checking the
specification's claims against the code.

Conventions:
- Python `Optional[T]` is `Option T`; Python truthiness of an optional
  string (`if delta_text:`) is `some s` with `s` nonempty.
- Fallible Python code (raising exceptions) is embedded as `Except`.
- Wall-clock timestamps that no claim reads (the `created` field produced
  by `int(time.time())`) are omitted from the response records.
- asyncio cooperative scheduling is embedded, for the throttle gate, as an
  explicit scheduler over atomic sections: the code between two `await`
  points runs as one atomic step.
-/

namespace GeminiProxy

/-! ## Wire-format records (src/Server/gemini_proxy/models.py) -/

/-- models.py `ChatMessage`: one role-tagged turn. -/
structure ChatMessage where
  role : String
  content : String
deriving DecidableEq

/-- models.py `ChatCompletionRequest`. `temperature` is a Python float,
modelled as a rational since no code path ever reads it; `max_tokens`
likewise is never read. -/
structure ChatCompletionRequest where
  model : String
  messages : List ChatMessage
  temperature : Option ℚ := some (7 / 10)
  max_tokens : Option ℤ := some 1000
  stream : Option Bool := some false
deriving DecidableEq

/-- models.py `ChatCompletionMessage` (response side). -/
structure ChatCompletionMessage where
  role : String := "assistant"
  content : String
deriving DecidableEq

/-- models.py `ChatCompletionChoice`. -/
structure ChatCompletionChoice where
  index : ℕ := 0
  message : ChatCompletionMessage
  finish_reason : String := "stop"
deriving DecidableEq

/-- models.py `UsageInfo`. -/
structure UsageInfo where
  prompt_tokens : ℕ := 0
  completion_tokens : ℕ := 0
  total_tokens : ℕ := 0
deriving DecidableEq

/-- models.py `ChatCompletionResponse` (the `created` wall-clock field is
omitted; no claim reads it). -/
structure ChatCompletionResponse where
  id : String := "chatcmpl-gemini"
  object : String := "chat.completion"
  model : String
  choices : List ChatCompletionChoice
  usage : UsageInfo := {}
deriving DecidableEq

/-! ## Backend exception taxonomy (gemini_webapi.exceptions, external
collaborator). Every library exception class that server.py imports is one
constructor; `otherExn` stands for any exception outside the library
hierarchy. Each carries its `str(exc)` message. -/

inductive GeminiExn where
  | authError (msg : String)
  | usageLimitExceeded (msg : String)
  | temporarilyBlocked (msg : String)
  | modelInvalid (msg : String)
  | timeoutError (msg : String)
  | geminiError (msg : String)
  | apiError (msg : String)
  | otherExn (msg : String)
deriving DecidableEq

/-- Python `str(exc)`. -/
def excMessage : GeminiExn → String
  | .authError m => m
  | .usageLimitExceeded m => m
  | .temporarilyBlocked m => m
  | .modelInvalid m => m
  | .timeoutError m => m
  | .geminiError m => m
  | .apiError m => m
  | .otherExn m => m

/-- `isinstance(exc, AuthError)`. -/
def is_AuthError : GeminiExn → Bool
  | .authError _ => true
  | _ => false

/-- `isinstance(exc, (UsageLimitExceeded, TemporarilyBlocked))`. -/
def is_UsageLimit_or_Blocked : GeminiExn → Bool
  | .usageLimitExceeded _ => true
  | .temporarilyBlocked _ => true
  | _ => false

/-- `isinstance(exc, ModelInvalid)`. -/
def is_ModelInvalid : GeminiExn → Bool
  | .modelInvalid _ => true
  | _ => false

/-- `isinstance(exc, GeminiTimeoutError)`. -/
def is_GeminiTimeoutError : GeminiExn → Bool
  | .timeoutError _ => true
  | _ => false

/-- `isinstance(exc, (GeminiError, APIError))`: every gemini_webapi
exception class derives from `GeminiError`, so this matches everything but
a non-library exception. -/
def is_GeminiError_or_APIError : GeminiExn → Bool
  | .otherExn _ => false
  | _ => true

/-! ## Error payloads (server.py `error_response`) -/

/-- The JSON error body `{error: {message, type, code?}}` together with the
HTTP status code of the `JSONResponse` that carries it. -/
structure ErrorPayload where
  status : ℕ
  message : String
  error_type : String
  code : Option String
deriving DecidableEq

/-- server.py `error_response` (lines 148-154). -/
def error_response (status : ℕ) (message : String) (error_type : String)
    (code : Option String) : ErrorPayload :=
  { status := status, message := message, error_type := error_type, code := code }

/-- server.py `handle_gemini_exception` (lines 157-169): the ordered
isinstance chain mapping backend exceptions to OpenAI-style errors. -/
def handle_gemini_exception (exc : GeminiExn) : ErrorPayload :=
  if is_AuthError exc then
    error_response 401 ("Gemini authentication failed: " ++ excMessage exc)
      "authentication_error" (some "auth_error")
  else if is_UsageLimit_or_Blocked exc then
    error_response 429 ("Gemini rate limit: " ++ excMessage exc)
      "rate_limit_error" (some "rate_limit")
  else if is_ModelInvalid exc then
    error_response 400 ("Invalid model: " ++ excMessage exc)
      "invalid_request_error" (some "model_invalid")
  else if is_GeminiTimeoutError exc then
    error_response 502 ("Gemini timeout: " ++ excMessage exc)
      "upstream_error" (some "timeout")
  else if is_GeminiError_or_APIError exc then
    error_response 502 ("Gemini error: " ++ excMessage exc)
      "upstream_error" (some "gemini_error")
  else
    error_response 502 ("Unexpected error: " ++ excMessage exc)
      "upstream_error" none

/-! ## Request translation (server.py `messages_to_prompt`) -/

/-- Python str.join semantics: concatenate with `sep` between elements. -/
def joinSep (sep : String) : List String → String
  | [] => ""
  | [p] => p
  | p :: q :: rest => p ++ sep ++ joinSep sep (q :: rest)

/-- The accumulation loop of `messages_to_prompt` (server.py lines 142-144):
`parts = []; for msg in messages: parts.append(msg.content)`. -/
def buildParts (messages : List ChatMessage) : List String :=
  messages.foldl (fun parts msg => parts ++ [msg.content]) []

/-- server.py `messages_to_prompt` (lines 140-145):
`"\n\n".join(parts)` over the accumulated contents. -/
def messages_to_prompt (messages : List ChatMessage) : String :=
  joinSep "\n\n" (buildParts messages)

/-! ## Stream translation (server.py `_stream_response`) -/

/-- One server-sent event frame, as the generator yields it:
`chunkEvent` is a `data: {ChatCompletionChunk json}` frame, recording the
chunk's model name and its single StreamChoice's delta fields and finish
reason; `errorEvent` is a `data: {ErrorResponse json}` frame; `doneSentinel`
is the literal `data: [DONE]` frame. -/
inductive SSEEvent where
  | chunkEvent (model_name : String) (delta_role : Option String)
      (delta_content : Option String) (finish_reason : Option String)
  | errorEvent (message : String) (error_type : String)
  | doneSentinel
deriving DecidableEq

/-- The `async for` body of `_stream_response` (server.py lines 235-242):
emit one content chunk per truthy `output.text_delta`, skipping `None` and
empty deltas. -/
def stream_loop (model_name : String) : List (Option String) → List SSEEvent
  | [] => []
  | none :: rest => stream_loop model_name rest
  | some s :: rest =>
    if s = "" then stream_loop model_name rest
    else SSEEvent.chunkEvent model_name none (some s) none :: stream_loop model_name rest

/-- server.py `_stream_response` (lines 225-258). The backend's behaviour
for this invocation is the list of deltas it yields before either finishing
normally (`exc = none`) or raising (`exc = some e`); an exception raised by
throttling, re-initialization or stream setup is the `deltas = []` case.
The `try` block emits the role chunk, the per-delta chunks, and on normal
completion the finish chunk and the sentinel; the `except` block emits one
error frame with hard-coded type `"upstream_error"` and the sentinel. -/
def stream_response (model_name : String) (deltas : List (Option String))
    (exc : Option GeminiExn) : List SSEEvent :=
  SSEEvent.chunkEvent model_name (some "assistant") none none
    :: stream_loop model_name deltas
    ++ match exc with
       | none =>
         [SSEEvent.chunkEvent model_name none none (some "stop"), SSEEvent.doneSentinel]
       | some e =>
         [SSEEvent.errorEvent (excMessage e) "upstream_error", SSEEvent.doneSentinel]

/-- Spec-side description of which delta texts get emitted: the non-empty,
non-absent ones, in order. Used to compare the loop against the spec. -/
def nonempty_texts (deltas : List (Option String)) : List String :=
  deltas.filterMap fun d =>
    match d with
    | none => none
    | some s => if s = "" then none else some s

/-- Recognizer for error frames. -/
def isErrorEvent : SSEEvent → Bool
  | .errorEvent _ _ => true
  | _ => false

/-! ## Model resolution (src/Server/gemini_proxy/config.py) -/

/-- gemini_webapi `Model` enum values the config maps to, plus `named` for
whatever `Model.from_name` resolves a free-form name to (external
collaborator). -/
inductive GModel where
  | g_3_0_flash
  | g_3_0_pro
  | g_3_0_flash_thinking
  | named (s : String)
deriving DecidableEq

/-- config.py `MODEL_MAP` (lines 11-18). -/
def MODEL_MAP : List (String × GModel) :=
  [("gemini-3.0-flash", GModel.g_3_0_flash),
   ("gemini-3.0-pro", GModel.g_3_0_pro),
   ("gemini-3.0-flash-thinking", GModel.g_3_0_flash_thinking),
   ("gpt-4o", GModel.g_3_0_flash),
   ("gpt-4o-mini", GModel.g_3_0_flash)]

/-- config.py `resolve_model` (lines 28-32). `fromName` embeds the external
`Model.from_name`, which raises `ValueError` (carrying a message) on an
unknown name. -/
def resolve_model (fromName : String → Except String GModel) (name : String) :
    Except String GModel :=
  match MODEL_MAP.lookup name with
  | some m => Except.ok m
  | none => fromName name

/-! ## Session manager (server.py `GeminiClientManager`) -/

/-- The `GeminiClient` handle: all the liveness predicate reads is its
`_running` flag. -/
structure ClientHandle where
  running : Bool
deriving DecidableEq

/-- server.py `GeminiClientManager.ready` (lines 59-61):
`self._client is not None and self._client._running`. -/
def ready (client : Option ClientHandle) : Bool :=
  match client with
  | some c => c.running
  | none => false

/-- Outcome of `_ensure_client`: the (possibly replaced) handle, how many
re-initializations ran, and whether a stale handle's `close()` was
attempted. -/
structure EnsureResult where
  client : Option ClientHandle
  reinitCount : ℕ
  closeAttempted : Bool
deriving DecidableEq

/-- `await self._client.close()` on a stale handle: may itself fail. -/
def close_client (_c : ClientHandle) (closeFails : Bool) : Except String Unit :=
  if closeFails then Except.error "close failed" else Except.ok ()

/-- server.py `GeminiClientManager._ensure_client` (lines 80-93). The body
runs under `self._init_lock`, so its steps are embedded sequentially; the
double check of `ready` after taking the lock collapses to one check in
this serialized view. A `try close / except pass` failure (`closeFails`)
must not alter the outcome; `initSucceeds` is whether
`GeminiClient().init(...)` succeeds (its failure propagates). -/
def ensure_client (client : Option ClientHandle) (closeFails : Bool)
    (initSucceeds : Bool) : Except String EnsureResult :=
  if ready client then Except.ok { client := client, reinitCount := 0, closeAttempted := false }
  else
    let closeAttempted :=
      match client with
      | some c =>
        match close_client c closeFails with
        | Except.ok _ => true
        | Except.error _ => true
      | none => false
    if initSucceeds then
      Except.ok { client := some { running := true }, reinitCount := 1,
                  closeAttempted := closeAttempted }
    else Except.error "init failed"

/-- server.py `GeminiClientManager.generate` (lines 105-109), with the
throttle delay abstracted away (it only suspends; its shared-state effects
are analyzed separately below): ensure the client is live, then issue the
backend call. Returns the post-ensure handle, the backend outcome, and the
re-initialization count. -/
def generate (client : Option ClientHandle) (closeFails initSucceeds : Bool)
    (backendGen : String → GModel → Except GeminiExn (Option String))
    (prompt : String) (model : GModel) :
    Except String (Option ClientHandle × Except GeminiExn (Option String) × ℕ) :=
  match ensure_client client closeFails initSucceeds with
  | Except.error e => Except.error e
  | Except.ok r => Except.ok (r.client, backendGen prompt model, r.reinitCount)

/-! ## Chat handler (server.py `_handle_chat`) -/

/-- The three shapes `_handle_chat` can return: a `JSONResponse` error, a
non-streaming `ChatCompletionResponse`, or a `StreamingResponse` whose body
is the event sequence of `_stream_response`. -/
inductive HandlerResult where
  | errorResp (p : ErrorPayload)
  | completion (r : ChatCompletionResponse)
  | streamingResp (events : List SSEEvent)
deriving DecidableEq

/-- server.py `_handle_chat` (lines 189-222). The backend is a parameter:
`backendGen` embeds `_manager.generate(prompt, model).text` (an `Option
String`, or a raised exception), `backendStream` embeds the behaviour of
`_manager.generate_stream` for this invocation as the deltas it yields plus
an optional exception it raises after them. Only the prompt and the
resolved model are ever passed to the backend. -/
def handle_chat (fromName : String → Except String GModel)
    (backendGen : String → GModel → Except GeminiExn (Option String))
    (backendStream : String → GModel → List (Option String) × Option GeminiExn)
    (req : ChatCompletionRequest) : HandlerResult :=
  match resolve_model fromName req.model with
  | Except.error msg =>
    HandlerResult.errorResp (error_response 400 msg "invalid_request_error" (some "invalid_model"))
  | Except.ok model =>
    let prompt := messages_to_prompt req.messages
    if req.stream.getD false then
      let outcome := backendStream prompt model
      HandlerResult.streamingResp (stream_response req.model outcome.1 outcome.2)
    else
      match backendGen prompt model with
      | Except.ok t =>
        HandlerResult.completion
          { model := req.model,
            choices := [{ message := { content := t.getD "" } }] }
      | Except.error exc => HandlerResult.errorResp (handle_gemini_exception exc)

/-! ## The throttle gate under concurrency (server.py `_throttle`,
lines 95-103, with `MIN_REQUEST_INTERVAL` from config.py line 7).

asyncio runs each coroutine atomically between `await` points. `_throttle`
therefore has two atomic sections:
  (A) `now = time.monotonic(); elapsed = now - last; if elapsed < MIN:`
      either falls through to the update with no suspension (elapsed ≥ MIN)
      or suspends in `await asyncio.sleep(MIN - elapsed)`;
  (B) on resumption, `self._last_request_time = time.monotonic()`, after
      which the backend call starts.
There is no lock around `_throttle`. The embedding below runs any number of
caller tasks under an explicit scheduler; time is in whole seconds (the
configured minimum is 2.0 s). A task's recorded start time is the moment it
writes the stamp, which in the code is immediately before the backend call
is issued. -/

/-- config.py `MIN_REQUEST_INTERVAL = 2.0`, in whole seconds. -/
def MIN_REQUEST_INTERVAL : ℕ := 2

/-- Where one throttling caller stands: not yet entered `_throttle`,
suspended in `asyncio.sleep` until `wakeTime`, or past the stamp update
(backend call started at `startTime`). -/
inductive TaskState where
  | notStarted
  | sleeping (wakeTime : ℕ)
  | finished (startTime : ℕ)
deriving DecidableEq

/-- Shared state: the monotonic clock, `self._last_request_time`
(initialized to 0.0 in `__init__`), the callers, and the backend-call start
times in the order they happened. -/
structure ThrottleSys where
  clock : ℕ
  last_request_time : ℕ
  tasks : List TaskState
  starts : List ℕ
deriving DecidableEq

/-- A scheduler action: let `d` seconds pass, or run the next atomic
section of caller `i` (a no-op if `i` is finished or still sleeping). -/
inductive SchedAction where
  | tick (d : ℕ)
  | run (i : ℕ)
deriving DecidableEq

/-- Run caller `i`'s next atomic section of `_throttle`. -/
def runTask (s : ThrottleSys) (i : ℕ) : ThrottleSys :=
  match s.tasks[i]? with
  | none => s
  | some TaskState.notStarted =>
    let now := s.clock
    let elapsed := now - s.last_request_time
    if elapsed < MIN_REQUEST_INTERVAL then
      { s with tasks := s.tasks.set i (TaskState.sleeping (now + (MIN_REQUEST_INTERVAL - elapsed))) }
    else
      { s with last_request_time := now,
               tasks := s.tasks.set i (TaskState.finished now),
               starts := s.starts ++ [now] }
  | some (TaskState.sleeping w) =>
    if w ≤ s.clock then
      { s with last_request_time := s.clock,
               tasks := s.tasks.set i (TaskState.finished s.clock),
               starts := s.starts ++ [s.clock] }
    else s
  | some (TaskState.finished _) => s

/-- One scheduler step. -/
def schedStep (s : ThrottleSys) : SchedAction → ThrottleSys
  | SchedAction.tick d => { s with clock := s.clock + d }
  | SchedAction.run i => runTask s i

/-- Execute a schedule from a state. -/
def execSched (actions : List SchedAction) (s : ThrottleSys) : ThrottleSys :=
  actions.foldl schedStep s

/-- `n` concurrent callers about to enter `_throttle` on a fresh manager. -/
def initSys (n : ℕ) : ThrottleSys :=
  { clock := 0, last_request_time := 0,
    tasks := List.replicate n TaskState.notStarted, starts := [] }

/-- Whether consecutive backend-call start times are always at least `gap`
apart — the property the throttle gate is supposed to enforce. -/
def minSpacing (gap : ℕ) : List ℕ → Bool
  | [] => true
  | [_] => true
  | a :: b :: rest => decide (a + gap ≤ b) && minSpacing gap (b :: rest)

/-! ## Helper lemmas -/

/-- The `parts.append` loop accumulates exactly the message contents. -/
lemma buildParts_foldl (acc : List String) (msgs : List ChatMessage) :
    msgs.foldl (fun parts msg => parts ++ [msg.content]) acc
      = acc ++ msgs.map ChatMessage.content := by
  induction msgs generalizing acc with
  | nil => simp
  | cons m rest ih => simp [List.foldl_cons, ih]

lemma buildParts_eq (msgs : List ChatMessage) :
    buildParts msgs = msgs.map ChatMessage.content := by
  simpa using buildParts_foldl [] msgs

/-- The streaming loop emits one content chunk per non-empty, non-absent
delta, in order. -/
lemma stream_loop_eq (mn : String) (deltas : List (Option String)) :
    stream_loop mn deltas
      = (nonempty_texts deltas).map
          (fun s => SSEEvent.chunkEvent mn none (some s) none) := by
  induction deltas with
  | nil => simp [stream_loop, nonempty_texts]
  | cons d rest ih =>
    cases d with
    | none => simpa [stream_loop, nonempty_texts] using ih
    | some s =>
      by_cases hs : s = ""
      · simpa [stream_loop, nonempty_texts, hs] using ih
      · simpa [stream_loop, nonempty_texts, hs] using ih

/-! ## Claim theorems -/

/-- Claim C1: the spec demands that the interval between the start times of
any two consecutive backend invocations be at least `MIN_REQUEST_INTERVAL`
for any number of concurrently waiting callers, the throttle's
check-then-update forming one serialized step. The code has no lock around
`_throttle`, and this legal asyncio schedule refutes the property: two
callers both read the stamp `0` at time 0, both sleep until time 2, and
both start their backend calls at time 2 — consecutive start times 0 apart. -/
theorem claim_C1_throttle_race_counterexample :
    (execSched
        [SchedAction.run 0, SchedAction.run 1, SchedAction.tick 2,
         SchedAction.run 0, SchedAction.run 1] (initSys 2)).starts = [2, 2]
    ∧ minSpacing MIN_REQUEST_INTERVAL
        (execSched
          [SchedAction.run 0, SchedAction.run 1, SchedAction.tick 2,
           SchedAction.run 0, SchedAction.run 1] (initSys 2)).starts = false := by
  constructor
  · decide
  · decide

/-- Claim C2: when the backend raises after yielding any prefix of deltas,
the event stream still terminates: the deltas already emitted are followed
by exactly one error frame carrying the failure's message (with type field
`"upstream_error"`) and then the `[DONE]` sentinel, after which the list —
hence the generator — produces nothing further; the exception never
escapes. -/
theorem claim_C2_stream_error_terminates :
    ∀ (mn : String) (deltas : List (Option String)) (e : GeminiExn),
      stream_response mn deltas (some e)
        = SSEEvent.chunkEvent mn (some "assistant") none none
            :: (nonempty_texts deltas).map
                (fun s => SSEEvent.chunkEvent mn none (some s) none)
            ++ [SSEEvent.errorEvent (excMessage e) "upstream_error",
                SSEEvent.doneSentinel]
      ∧ (stream_response mn deltas (some e)).countP isErrorEvent = 1
      ∧ (stream_response mn deltas (some e)).getLast? = some SSEEvent.doneSentinel := by
  intro mn deltas e
  have hshape : stream_response mn deltas (some e)
      = SSEEvent.chunkEvent mn (some "assistant") none none
          :: (nonempty_texts deltas).map
              (fun s => SSEEvent.chunkEvent mn none (some s) none)
          ++ [SSEEvent.errorEvent (excMessage e) "upstream_error",
              SSEEvent.doneSentinel] := by
    simp [stream_response, stream_loop_eq]
  refine ⟨hshape, ?_, ?_⟩
  · rw [hshape]
    simp [List.countP_cons, List.countP_append, List.countP_map, isErrorEvent,
      Function.comp]
  · rw [hshape]
    have hsplit : SSEEvent.chunkEvent mn (some "assistant") none none
        :: (nonempty_texts deltas).map
            (fun s => SSEEvent.chunkEvent mn none (some s) none)
        ++ [SSEEvent.errorEvent (excMessage e) "upstream_error",
            SSEEvent.doneSentinel]
        = (SSEEvent.chunkEvent mn (some "assistant") none none
            :: (nonempty_texts deltas).map
                (fun s => SSEEvent.chunkEvent mn none (some s) none)
            ++ [SSEEvent.errorEvent (excMessage e) "upstream_error"])
          ++ [SSEEvent.doneSentinel] := by
      simp
    rw [hsplit, List.getLast?_concat]

/-- Claim C3: for a backend yield sequence with exactly N non-empty deltas
(empty or absent ones skipped, never emitted), the stream is the role
chunk, the N content chunks in backend order, the finish chunk with
`finish_reason` `"stop"`, and the sentinel — N+2 framed events before the
sentinel, N+3 events in total. -/
theorem claim_C3_stream_event_count :
    ∀ (mn : String) (deltas : List (Option String)),
      stream_response mn deltas none
        = SSEEvent.chunkEvent mn (some "assistant") none none
            :: (nonempty_texts deltas).map
                (fun s => SSEEvent.chunkEvent mn none (some s) none)
            ++ [SSEEvent.chunkEvent mn none none (some "stop"),
                SSEEvent.doneSentinel]
      ∧ (stream_response mn deltas none).length = (nonempty_texts deltas).length + 3
      ∧ (stream_response mn deltas none).dropLast.length
          = (nonempty_texts deltas).length + 2 := by
  intro mn deltas
  have hshape : stream_response mn deltas none
      = SSEEvent.chunkEvent mn (some "assistant") none none
          :: (nonempty_texts deltas).map
              (fun s => SSEEvent.chunkEvent mn none (some s) none)
          ++ [SSEEvent.chunkEvent mn none none (some "stop"),
              SSEEvent.doneSentinel] := by
    simp [stream_response, stream_loop_eq]
  refine ⟨hshape, ?_, ?_⟩
  · rw [hshape]; simp
  · rw [hshape]; simp

/-- Claim C4: an invoke issued while the session is not live (`ready` is
false), assuming re-initialization succeeds, re-initializes exactly once —
attempting `close()` on any stale handle first and ignoring close errors
(the outcome is the same for both values of `closeFails`) — leaves a live
client, and proceeds to the backend call; no "not ready" error is ever
returned to the caller. -/
theorem claim_C4_invoke_reinitializes_once :
    ∀ (client : Option ClientHandle) (closeFails : Bool)
      (bg : String → GModel → Except GeminiExn (Option String))
      (prompt : String) (model : GModel),
      ready client = false →
      ensure_client client closeFails true
          = Except.ok { client := some { running := true }, reinitCount := 1,
                        closeAttempted := client.isSome }
      ∧ ready (some { running := true }) = true
      ∧ generate client closeFails true bg prompt model
          = Except.ok (some { running := true }, bg prompt model, 1) := by
  intro client closeFails bg prompt model h
  have h1 : ensure_client client closeFails true
      = Except.ok { client := some { running := true }, reinitCount := 1,
                    closeAttempted := client.isSome } := by
    cases client with
    | none => simp [ensure_client, ready, close_client]
    | some c =>
      cases closeFails <;> simp [ensure_client, h, close_client]
  exact ⟨h1, rfl, by simp [generate, h1]⟩

/-- Witness for C4: a stale handle (`running = false`) with a failing
`close()`: the invoke still re-initializes once and reaches the backend. -/
theorem claim_C4_witness :
    ready (some { running := false }) = false
    ∧ (ensure_client (some { running := false }) true true
          = Except.ok { client := some { running := true }, reinitCount := 1,
                        closeAttempted := true }
        ∧ ready (some { running := true }) = true
        ∧ generate (some { running := false }) true true
              (fun _ _ => Except.ok (some "ok")) "p" GModel.g_3_0_flash
            = Except.ok (some { running := true }, Except.ok (some "ok"), 1)) :=
  ⟨rfl, claim_C4_invoke_reinitializes_once (some { running := false }) true
    (fun _ _ => Except.ok (some "ok")) "p" GModel.g_3_0_flash rfl⟩

/-- Claim C5: the exception mapping is total — every exception the backend
can raise (each gemini_webapi class the server imports) and any unexpected
exception resolves to exactly the stated payload: AuthError to 401
`authentication_error`, UsageLimitExceeded and TemporarilyBlocked to 429
with the rate-limit marker, ModelInvalid to 400, timeout to 502 with the
timeout marker, other Gemini or API errors to 502 with the generic marker,
anything else to 502 with no code. -/
theorem claim_C5_error_mapping_total :
    ∀ m : String,
      handle_gemini_exception (GeminiExn.authError m)
          = { status := 401, message := "Gemini authentication failed: " ++ m,
              error_type := "authentication_error", code := some "auth_error" }
      ∧ handle_gemini_exception (GeminiExn.usageLimitExceeded m)
          = { status := 429, message := "Gemini rate limit: " ++ m,
              error_type := "rate_limit_error", code := some "rate_limit" }
      ∧ handle_gemini_exception (GeminiExn.temporarilyBlocked m)
          = { status := 429, message := "Gemini rate limit: " ++ m,
              error_type := "rate_limit_error", code := some "rate_limit" }
      ∧ handle_gemini_exception (GeminiExn.modelInvalid m)
          = { status := 400, message := "Invalid model: " ++ m,
              error_type := "invalid_request_error", code := some "model_invalid" }
      ∧ handle_gemini_exception (GeminiExn.timeoutError m)
          = { status := 502, message := "Gemini timeout: " ++ m,
              error_type := "upstream_error", code := some "timeout" }
      ∧ handle_gemini_exception (GeminiExn.geminiError m)
          = { status := 502, message := "Gemini error: " ++ m,
              error_type := "upstream_error", code := some "gemini_error" }
      ∧ handle_gemini_exception (GeminiExn.apiError m)
          = { status := 502, message := "Gemini error: " ++ m,
              error_type := "upstream_error", code := some "gemini_error" }
      ∧ handle_gemini_exception (GeminiExn.otherExn m)
          = { status := 502, message := "Unexpected error: " ++ m,
              error_type := "upstream_error", code := none } := by
  intro m
  exact ⟨rfl, rfl, rfl, rfl, rfl, rfl, rfl, rfl⟩

/-- Claim C6: the prompt is the contents of the messages, in input order,
joined by a blank line; one message yields its content verbatim with no
separator, and a longer request is head content, separator, then the
prompt of the tail — so no turn is dropped or reordered. -/
theorem claim_C6_prompt_preserves_turns :
    (∀ msgs : List ChatMessage,
        messages_to_prompt msgs = joinSep "\n\n" (msgs.map ChatMessage.content))
    ∧ (∀ m : ChatMessage, messages_to_prompt [m] = m.content)
    ∧ (∀ (m m2 : ChatMessage) (rest : List ChatMessage),
        messages_to_prompt (m :: m2 :: rest)
          = m.content ++ "\n\n" ++ messages_to_prompt (m2 :: rest)) := by
  refine ⟨?_, ?_, ?_⟩
  · intro msgs
    simp [messages_to_prompt, buildParts_eq]
  · intro m
    simp [messages_to_prompt, buildParts_eq, joinSep]
  · intro m m2 rest
    simp [messages_to_prompt, buildParts_eq, joinSep]

/-- Claim C7: a non-streaming request that resolves its model and reaches
the backend successfully is answered with exactly one choice whose message
has role `"assistant"` and content equal to the backend's bulk text (empty
when the backend returned no text), with `finish_reason` `"stop"`. -/
theorem claim_C7_nonstream_single_choice :
    ∀ (fromName : String → Except String GModel)
      (bg : String → GModel → Except GeminiExn (Option String))
      (bs : String → GModel → List (Option String) × Option GeminiExn)
      (req : ChatCompletionRequest) (model : GModel) (t : Option String),
      resolve_model fromName req.model = Except.ok model →
      req.stream.getD false = false →
      bg (messages_to_prompt req.messages) model = Except.ok t →
      handle_chat fromName bg bs req
        = HandlerResult.completion
            { id := "chatcmpl-gemini", object := "chat.completion",
              model := req.model,
              choices := [{ index := 0,
                            message := { role := "assistant", content := t.getD "" },
                            finish_reason := "stop" }],
              usage := { prompt_tokens := 0, completion_tokens := 0,
                         total_tokens := 0 } } := by
  intro fromName bg bs req model t h1 h2 h3
  simp [handle_chat, h1, h2, h3]

/-- Witness for C7: the spec's example — model `"gemini-3.0-flash"`, one
user message `"Hi"`, `stream: false`, backend returning `"Hello"` — yields
one assistant choice `"Hello"` with finish reason `"stop"`. -/
theorem claim_C7_witness :
    resolve_model (fun s => Except.error s) "gemini-3.0-flash"
        = Except.ok GModel.g_3_0_flash
    ∧ handle_chat (fun s => Except.error s)
        (fun _ _ => Except.ok (some "Hello"))
        (fun _ _ => ([], none))
        { model := "gemini-3.0-flash",
          messages := [{ role := "user", content := "Hi" }],
          stream := some false }
      = HandlerResult.completion
          { id := "chatcmpl-gemini", object := "chat.completion",
            model := "gemini-3.0-flash",
            choices := [{ index := 0,
                          message := { role := "assistant", content := "Hello" },
                          finish_reason := "stop" }],
            usage := { prompt_tokens := 0, completion_tokens := 0,
                       total_tokens := 0 } } :=
  ⟨rfl,
   claim_C7_nonstream_single_choice (fun s => Except.error s)
     (fun _ _ => Except.ok (some "Hello")) (fun _ _ => ([], none))
     { model := "gemini-3.0-flash",
       messages := [{ role := "user", content := "Hi" }],
       stream := some false }
     GModel.g_3_0_flash (some "Hello") rfl rfl rfl⟩

/-- Claim C8: a request whose model name cannot be resolved is answered
with a 400 `invalid_request_error` payload, and the handler's outcome is
independent of the backend — the backend session (and with it the throttle
state, which only backend invocations touch) is never exercised. -/
theorem claim_C8_invalid_model_fails_fast :
    ∀ (fromName : String → Except String GModel)
      (bg : String → GModel → Except GeminiExn (Option String))
      (bs : String → GModel → List (Option String) × Option GeminiExn)
      (req : ChatCompletionRequest) (msg : String),
      resolve_model fromName req.model = Except.error msg →
      handle_chat fromName bg bs req
        = HandlerResult.errorResp
            { status := 400, message := msg, error_type := "invalid_request_error",
              code := some "invalid_model" }
      ∧ ∀ (bg2 : String → GModel → Except GeminiExn (Option String))
          (bs2 : String → GModel → List (Option String) × Option GeminiExn),
          handle_chat fromName bg bs req = handle_chat fromName bg2 bs2 req := by
  intro fromName bg bs req msg h
  constructor
  · simp [handle_chat, h, error_response]
  · intro bg2 bs2
    simp [handle_chat, h]

/-- Witness for C8: the spec's example — unresolvable model name
`"not-a-model"` — yields the 400 `invalid_request_error` payload, with the
backend irrelevant to the outcome. -/
theorem claim_C8_witness :
    resolve_model (fun s => Except.error ("Unknown model name: " ++ s)) "not-a-model"
        = Except.error "Unknown model name: not-a-model"
    ∧ (handle_chat (fun s => Except.error ("Unknown model name: " ++ s))
          (fun _ _ => Except.ok none) (fun _ _ => ([], none))
          { model := "not-a-model", messages := [] }
        = HandlerResult.errorResp
            { status := 400, message := "Unknown model name: not-a-model",
              error_type := "invalid_request_error", code := some "invalid_model" }
      ∧ ∀ (bg2 : String → GModel → Except GeminiExn (Option String))
          (bs2 : String → GModel → List (Option String) × Option GeminiExn),
          handle_chat (fun s => Except.error ("Unknown model name: " ++ s))
              (fun _ _ => Except.ok none) (fun _ _ => ([], none))
              { model := "not-a-model", messages := [] }
            = handle_chat (fun s => Except.error ("Unknown model name: " ++ s))
                bg2 bs2 { model := "not-a-model", messages := [] }) :=
  ⟨rfl,
   claim_C8_invalid_model_fails_fast (fun s => Except.error ("Unknown model name: " ++ s))
     (fun _ _ => Except.ok none) (fun _ _ => ([], none))
     { model := "not-a-model", messages := [] }
     "Unknown model name: not-a-model" rfl⟩

/-- Claim C9: the in-band error frame of a mid-stream failure always has
type field `"upstream_error"`, whatever the exception's class; in
particular a mid-stream authentication failure is reported as
`"upstream_error"`, although the error mapper would classify that same
exception as `"authentication_error"`. -/
theorem claim_C9_midstream_error_type_fixed :
    (∀ (mn : String) (deltas : List (Option String)) (e : GeminiExn),
        (stream_response mn deltas (some e)).filter isErrorEvent
          = [SSEEvent.errorEvent (excMessage e) "upstream_error"])
    ∧ (∀ m : String,
        (handle_gemini_exception (GeminiExn.authError m)).error_type
          = "authentication_error")
    ∧ ("authentication_error" : String) ≠ "upstream_error" := by
  refine ⟨?_, fun m => rfl, by decide⟩
  intro mn deltas e
  simp [stream_response, stream_loop_eq, List.filter_append, List.filter_map,
    isErrorEvent, Function.comp]

/-- Claim C10: `temperature` and `max_tokens` are accepted but never read —
two requests identical except in those fields produce identical handler
outcomes against the same backend, because only the prompt and the resolved
model are ever passed to it. -/
theorem claim_C10_generation_params_ignored :
    ∀ (fromName : String → Except String GModel)
      (bg : String → GModel → Except GeminiExn (Option String))
      (bs : String → GModel → List (Option String) × Option GeminiExn)
      (req : ChatCompletionRequest) (t1 t2 : Option ℚ) (k1 k2 : Option ℤ),
      handle_chat fromName bg bs { req with temperature := t1, max_tokens := k1 }
        = handle_chat fromName bg bs { req with temperature := t2, max_tokens := k2 } := by
  intro fromName bg bs req t1 t2 k1 k2
  rfl

end GeminiProxy
